import Mathlib

/-!
Shallow embedding of the broker-mediated event and media-streaming gateway of
the `smart_camera_backend` repository, together with proofs settling the
frozen claims C1..C10 about it.

Embedded source files:
* `app/core/rabbitmq.py` — `RabbitMQManager` (connect / disconnect /
  reconnect / publish_message / consume_queue.message_handler);
* `app/workers/rabbitmq_consumer.py` — `RabbitMQConsumer.process_detection_message`;
* `app/services/rabbitmq_service.py` — `publish_camera_event`;
* `app/services/stream_service.py` — `StreamService` (`_ensure_queues_declared`,
  `get_stream_info`, `stream_generator`, `get_stream_service`);
* `app/api/v1/stream.py` — route `get_camera_info`.

Conventions of the embedding:
* Network calls into the `aio_pika` broker library are modelled by explicit
  outcome parameters (does `connect_robust` succeed, does `publish` raise,
  what a queue fetch returned), and the sequence of network side effects is
  returned as an explicit trace so that "no network operation happened" and
  "waited d before retrying" are statable.
* `json.loads` is modelled by its outcome: `none` stands for a body that
  raises `json.JSONDecodeError`, `some p` for a successfully parsed payload.
* The `aio_pika` context manager `message.process()` acknowledges the message
  on clean exit of the block and, when the block raises, rejects it with
  `requeue` equal to the `requeue` argument of `process()`; both call sites
  in this repository call `message.process()` with no arguments, so the
  reject is issued with `requeue = False` (the library default).
* Python functions that cannot raise past their boundary are embedded as
  total Lean functions; a Python `return None` is `Option.none`.
-/

namespace SmartCamera

/-! ## Connection manager: `RabbitMQManager` in `app/core/rabbitmq.py` -/

/-- One observable network side effect of the connection manager:
closing the connection, sleeping for a backoff delay, or attempting
`aio_pika.connect_robust` (together with the channel opening and exchange
declaration that `connect` performs on it). -/
inductive NetOp
  | disconnectOp
  | sleepOp (duration : Nat)
  | connectAttempt
  deriving DecidableEq, Repr

/-- State of a `RabbitMQManager` instance.  Live connections and channels are
identified by numeric handles drawn from the `nextId` counter, so that
replacing a connection by a fresh one is observable. -/
structure MgrState where
  connection : Option Nat
  channel : Option Nat
  exchangeDeclared : Bool
  isConnected : Bool
  reconnectAttempts : Nat
  nextId : Nat
  deriving DecidableEq, Repr

/-- `self._max_reconnect_attempts = 5` (rabbitmq.py line 26). -/
def maxReconnectAttempts : Nat := 5

/-- The state built by `RabbitMQManager.__init__`. -/
def initMgr : MgrState :=
  { connection := none, channel := none, exchangeDeclared := false,
    isConnected := false, reconnectAttempts := 0, nextId := 0 }

/-- `RabbitMQManager.connect` (rabbitmq.py lines 28–58).  `ok` is the outcome
of the `aio_pika.connect_robust` call: on success a fresh connection and a
fresh channel are installed, the exchange is declared, `_is_connected` is set
and `_reconnect_attempts` is reset to `0`; on failure (the `except` branch)
`_is_connected` is cleared and `False` is returned, the previously stored
handles being left in place. -/
def connect (s : MgrState) (ok : Bool) : Bool × MgrState × List NetOp :=
  if ok then
    (true,
     { connection := some s.nextId
       channel := some (s.nextId + 1)
       exchangeDeclared := true
       isConnected := true
       reconnectAttempts := 0
       nextId := s.nextId + 2 },
     [NetOp.connectAttempt])
  else
    (false, { s with isConnected := false }, [NetOp.connectAttempt])

/-- `RabbitMQManager.disconnect` (rabbitmq.py lines 60–73): closes the
connection when one is held, then clears every cached handle and the
connected flag. -/
def disconnect (s : MgrState) : MgrState × List NetOp :=
  ({ s with connection := none, channel := none, exchangeDeclared := false,
            isConnected := false },
   if s.connection.isSome then [NetOp.disconnectOp] else [])

/-- `RabbitMQManager.reconnect` (rabbitmq.py lines 75–87).  When the attempt
counter has reached `_max_reconnect_attempts` it returns `False` at once,
performing no network operation.  Otherwise it increments the counter to `k`,
runs `disconnect()`, sleeps `5 * k`, and retries `connect()` (whose outcome
is the `ok` parameter). -/
def reconnect (s : MgrState) (ok : Bool) : Bool × MgrState × List NetOp :=
  if maxReconnectAttempts ≤ s.reconnectAttempts then
    (false, s, [])
  else
    let k := s.reconnectAttempts + 1
    let s1 := { s with reconnectAttempts := k }
    let d := disconnect s1
    let c := connect d.1 ok
    (c.1, c.2.1, d.2 ++ [NetOp.sleepOp (5 * k)] ++ c.2.2)

/-- Counts of the network operations a `publish_message` call performed. -/
structure PubTrace where
  reconnectCalls : Nat
  publishAttempts : Nat
  deriving DecidableEq, Repr

/-- `RabbitMQManager.publish_message` (rabbitmq.py lines 113–139).
If the manager is not connected it first calls `reconnect()` (outcome of the
inner `connect` given by `connectOk`), returning `False` when that fails.
It then attempts the publish exactly once (`publishOk` is whether
`exchange.publish` succeeds); on failure the `except` branch clears
`_is_connected` and returns `False`.  No retry of the publish is performed
and no exception escapes. -/
def publish_message (s : MgrState) (connectOk publishOk : Bool) :
    Bool × MgrState × PubTrace :=
  let attempt : MgrState → Nat → Bool × MgrState × PubTrace := fun s1 rc =>
    if publishOk then (true, s1, ⟨rc, 1⟩)
    else (false, { s1 with isConnected := false }, ⟨rc, 1⟩)
  if s.isConnected then
    attempt s 0
  else
    let r := reconnect s connectOk
    if r.1 then attempt r.2.1 1 else (false, r.2.1, ⟨1, 0⟩)

/-- `publish_camera_event` in `app/services/rabbitmq_service.py` (lines 6–41),
the publisher actually used by the camera lifecycle API.  It opens a fresh
connection, declares the fan-out exchange `camera.events` and publishes the
event once.  Any broker failure raises out of the function (there is no
`try`/`except` and no retry); the embedded result is `Except`, with `.error`
standing for a propagated exception.  `connectOk` and `publishOk` are the
outcomes of the two network calls. -/
def publish_camera_event (connectOk publishOk : Bool) : Except Unit Unit :=
  if !connectOk then .error ()
  else if !publishOk then .error ()
  else .ok ()

/-! ## Consumer dispatcher: `consume_queue.message_handler` in
`app/core/rabbitmq.py` and `process_detection_message` in
`app/workers/rabbitmq_consumer.py` -/

/-- The acknowledgement decision the `message.process()` context manager
issues for a delivered message: `ack` on clean exit of the block, or
`reject requeue` when the block raises (with the `requeue` argument that was
passed to `process()`, `false` at every call site of this repository). -/
inductive Ack
  | ack
  | reject (requeue : Bool)
  deriving DecidableEq, Repr

/-- Outcome of invoking the registered callback / service code on a decoded
payload: it either returns normally or raises. -/
inductive HandlerResult
  | ok
  | raises
  deriving DecidableEq, Repr

/-- The nested `message_handler` of `RabbitMQManager.consume_queue`
(rabbitmq.py lines 154–169), for a single delivery.  `parsed` is the outcome
of `json.loads(message.body.decode())` (`none` = raises
`json.JSONDecodeError`); `handler` is the registered callback.  Returns the
acknowledgement decision of the surrounding `message.process()` block and
the number of times the callback was invoked:

* decode failure is caught (`except json.JSONDecodeError`), so the block
  exits cleanly and the message is acknowledged, the callback never runs;
* a callback that raises hits the generic `except` branch, which re-raises
  out of the block, so `message.process()` — called with no arguments —
  rejects the message with `requeue = False`;
* a callback that succeeds leaves the block cleanly: acknowledge. -/
def message_handler {α : Type} (parsed : Option α) (handler : α → HandlerResult) :
    Ack × Nat :=
  match parsed with
  | none => (Ack.ack, 0)
  | some p =>
    match handler p with
    | HandlerResult.ok => (Ack.ack, 1)
    | HandlerResult.raises => (Ack.reject false, 1)

/-- Broker-side effect of an acknowledgement decision on the queue the
message came from: `ack` and `reject false` remove the message for good,
`reject true` requeues it for redelivery at the back of the queue. -/
def settle {M : Type} (a : Ack) (m : M) (rest : List M) : List M :=
  match a with
  | Ack.ack => rest
  | Ack.reject b => if b then rest ++ [m] else rest

/-- Repeated delivery of one message to `message_handler` under the broker
semantics of `settle`: the message is delivered, and redelivered as long as
the acknowledgement decision is `reject true`.  `hres d` is the behaviour of
the registered callback on the `d`-th delivery (0-indexed), so stateful
handlers such as "fail once, then succeed" are expressible.  Returns the
total number of callback invocations.  `fuel` bounds the number of
deliveries examined. -/
def redeliverRun {α : Type} (fuel : Nat) (parsed : Option α)
    (hres : Nat → HandlerResult) (delivery : Nat) : Nat :=
  match fuel with
  | 0 => 0
  | fuel' + 1 =>
    let r := message_handler parsed (fun _ => hres delivery)
    match r.1 with
    | Ack.reject true => r.2 + redeliverRun fuel' parsed hres (delivery + 1)
    | _ => r.2

/-- A callback that raises on its first delivery and succeeds afterwards. -/
def failThenSucceed : Nat → HandlerResult :=
  fun d => if d = 0 then HandlerResult.raises else HandlerResult.ok

/-- `RabbitMQConsumer.process_detection_message`
(app/workers/rabbitmq_consumer.py lines 90–138), for a single delivery.
`parsed = none` models a body raising `json.JSONDecodeError`;
`parsed = some none` a parsed body with a missing/empty `camera_id`
(the validation `if not camera_id: return`); `parsed = some (some cid)` a
valid body, in which case the detection service runs with outcome `svc`.
Every exception inside the `async with message.process()` block is caught by
one of the `except` clauses, so the block always exits cleanly and the
message is always acknowledged.  The second component records whether the
detection-service code was reached. -/
def process_detection_message (parsed : Option (Option String))
    (svc : HandlerResult) : Ack × Bool :=
  match parsed with
  | none => (Ack.ack, false)
  | some none => (Ack.ack, false)
  | some (some _) =>
    match svc with
    | HandlerResult.ok => (Ack.ack, true)
    | HandlerResult.raises => (Ack.ack, true)

/-! ## Frame streaming gateway: `StreamService` in
`app/services/stream_service.py` -/

/-- Parameters of a `channel.declare_queue` call. -/
structure QueueArgs where
  durable : Bool
  autoDelete : Bool
  xMaxLength : Option Nat
  xOverflow : Option String
  xMessageTtl : Option Nat
  deriving DecidableEq, Repr

/-- `f"camera.info.{camera_id}"` (stream_service.py line 49). -/
def infoQueueName (cameraId : String) : String := "camera.info." ++ cameraId

/-- `f"camera.stream.{camera_id}"` (stream_service.py line 52). -/
def streamQueueName (cameraId : String) : String := "camera.stream." ++ cameraId

/-- Arguments of the metadata-queue declaration (line 50):
`durable=False, auto_delete=True`, no bound arguments. -/
def infoQueueArgs : QueueArgs :=
  { durable := false, autoDelete := true,
    xMaxLength := none, xOverflow := none, xMessageTtl := none }

/-- Arguments of the frame-queue declaration (lines 53–62):
`durable=False, auto_delete=True,
arguments={"x-max-length": 5, "x-overflow": "drop-head",
"x-message-ttl": 2000}` (the TTL is in milliseconds). -/
def streamQueueArgs : QueueArgs :=
  { durable := false, autoDelete := true,
    xMaxLength := some 5, xOverflow := some "drop-head",
    xMessageTtl := some 2000 }

/-- State of one `StreamService` instance: the keys of its
`_declared_queues` dictionary, plus the trace of `declare_queue` network
calls it has issued (queue name and arguments, in order). -/
structure StreamServiceState where
  declaredQueues : List String
  declares : List (String × QueueArgs)
  deriving DecidableEq, Repr

/-- The state of a freshly constructed `StreamService`
(`__init__`, line 33: `self._declared_queues = {}`). -/
def StreamService.new : StreamServiceState :=
  { declaredQueues := [], declares := [] }

/-- `get_stream_service` (stream_service.py lines 21–26): the FastAPI
dependency constructs a **new** `StreamService` (with an empty declaration
cache) on every invocation. -/
def get_stream_service : StreamServiceState := StreamService.new

/-- `StreamService._ensure_queues_declared` (lines 41–64): returns at once
when `camera_id` is already a key of `_declared_queues`; otherwise declares
the info queue and the bounded frame queue over the network and records the
id in the cache. -/
def ensure_queues_declared (s : StreamServiceState) (cameraId : String) :
    StreamServiceState :=
  if cameraId ∈ s.declaredQueues then s
  else
    { declaredQueues := cameraId :: s.declaredQueues,
      declares := s.declares ++
        [(infoQueueName cameraId, infoQueueArgs),
         (streamQueueName cameraId, streamQueueArgs)] }

/-- Broker semantics of the `x-overflow: drop-head` policy the frame queue
is declared with: enqueueing appends at the back and, when the bound is
exceeded, evicts from the front (oldest first) down to the bound. -/
def enqueueDropHead {M : Type} (maxLen : Nat) (q : List M) (m : M) : List M :=
  let q' := q ++ [m]
  if maxLen < q'.length then q'.drop (q'.length - maxLen) else q'

/-- Enqueue a list of messages one after the other under `drop-head`. -/
def enqueueAll {M : Type} (maxLen : Nat) (q : List M) (ms : List M) : List M :=
  ms.foldl (enqueueDropHead maxLen) q

/-- `CameraStatus` values used by the stream service
(app/schemas/camera.py lines 16–21; only `ACTIVE`/`INACTIVE` are produced
here). -/
inductive CameraStatus
  | active
  | inactive
  | error
  | maintenance
  deriving DecidableEq, Repr

/-- `CameraStreamInfo` (app/schemas/camera.py lines 79–87).  The numeric
`fps`/`bitrate` fields only pass through this code unexamined, so they are
embedded as `Option Nat`. -/
structure CameraStreamInfo where
  camera_id : String
  stream_url : String
  status : CameraStatus
  fps : Option Nat
  resolution : Option String
  codec : Option String
  bitrate : Option Nat
  deriving DecidableEq, Repr

/-- `f"/api/v1/cameras/{camera_id}/stream"` (stream_service.py lines 76, 85). -/
def streamUrl (cameraId : String) : String :=
  "/api/v1/cameras/" ++ cameraId ++ "/stream"

/-- The fields `get_stream_info` reads from a parsed metadata payload. -/
structure InfoPayload where
  width : Option Nat
  height : Option Nat
  fps : Option Nat
  codec : Option String
  bitrate : Option Nat
  deriving DecidableEq, Repr

/-- Python truthiness of `payload.get("width")`: `None` and `0` are falsy. -/
def pyTruthy (v : Option Nat) : Bool :=
  match v with
  | none => false
  | some n => n ≠ 0

/-- `f"{width}x{height}" if width and height else None`
(stream_service.py line 88). -/
def mkResolution (width height : Option Nat) : Option String :=
  if pyTruthy width && pyTruthy height then
    some (toString (width.getD 0) ++ "x" ++ toString (height.getD 0))
  else none

/-- Outcome of the fetch `await self.channel.get(queue_name, timeout=3)`
performed by `get_stream_info`, as seen by the surrounding `try` block:
either a message arrived (with the outcome of parsing its body as JSON,
`none` = the parse raises), or no message was returned within the timeout
(the `if not message` branch), or the fetch itself raised. -/
inductive FetchOutcome
  | msg (body : Option InfoPayload)
  | empty
  | error
  deriving DecidableEq, Repr

/-- `StreamService.get_stream_info` (stream_service.py lines 66–94).
It first runs `_ensure_queues_declared` (outside the `try`), then fetches at
most one message from `camera.info.<id>`:

* no message within the timeout → a `CameraStreamInfo` with
  `status = INACTIVE` and empty metadata fields;
* a message whose body parses → a `CameraStreamInfo` with
  `status = ACTIVE` carrying the fields of the payload;
* the parse raising, or the fetch itself raising → the `except` branch
  returns `None`; no exception escapes the method. -/
def get_stream_info (s : StreamServiceState) (cameraId : String)
    (fetch : FetchOutcome) : StreamServiceState × Option CameraStreamInfo :=
  let s1 := ensure_queues_declared s cameraId
  match fetch with
  | FetchOutcome.error => (s1, none)
  | FetchOutcome.empty =>
    (s1, some { camera_id := cameraId, stream_url := streamUrl cameraId,
                status := CameraStatus.inactive,
                fps := none, resolution := none, codec := none, bitrate := none })
  | FetchOutcome.msg none => (s1, none)
  | FetchOutcome.msg (some p) =>
    (s1, some { camera_id := cameraId, stream_url := streamUrl cameraId,
                status := CameraStatus.active,
                fps := p.fps, resolution := mkResolution p.width p.height,
                codec := p.codec, bitrate := p.bitrate })

/-- Result of the HTTP route: a JSON body or an `HTTPException` status. -/
inductive RouteResult
  | ok (info : CameraStreamInfo)
  | httpError (code : Nat)
  deriving DecidableEq, Repr

/-- Route `GET /cameras/{camera_id}/info` (app/api/v1/stream.py lines
12–18): calls `get_stream_info` and raises `HTTPException(404)` exactly when
it returned `None` (a `CameraStreamInfo` instance is always truthy). -/
def get_camera_info (s : StreamServiceState) (cameraId : String)
    (fetch : FetchOutcome) : RouteResult :=
  match (get_stream_info s cameraId fetch).2 with
  | none => RouteResult.httpError 404
  | some info => RouteResult.ok info

/-- One consumed message of the frame queue, as seen by `stream_generator`
after the library calls it makes on the raw body: `malformed` = the
`json.loads` (or `base64.b64decode`) call raises, `noFrame` = the body
parses but `payload.get("frame")` is missing or falsy, `frame b` = the
embedded image decodes to the bytes `b`. -/
inductive StreamPayload
  | malformed
  | noFrame
  | frame (bytes : List UInt8)
  deriving DecidableEq, Repr

/-- JPEG start-of-image marker `b"\xff\xd8"`. -/
def jpegSOI : List UInt8 := [0xff, 0xd8]

/-- JPEG end-of-image marker `b"\xff\xd9"`. -/
def jpegEOI : List UInt8 := [0xff, 0xd9]

/-- `frame_bytes.startswith` of the SOI marker and `frame_bytes.endswith` of the EOI marker
(stream_service.py line 111). -/
def isValidJpeg (b : List UInt8) : Bool :=
  decide (b.take 2 = jpegSOI) && decide (b.drop (b.length - 2) = jpegEOI)

/-- One multipart chunk as yielded by `stream_generator` (lines 113–118):
the bytes `--frame\r\nContent-Type: <contentType>\r\nContent-Length: `
`<contentLength>\r\n\r\n<body>\r\n`, embedded by its fields.  At the only
yield site `contentType` is the literal `"image/jpeg"`, `contentLength` is
`len(frame_bytes)` and `body` is `frame_bytes`. -/
structure MultipartChunk where
  contentType : String
  contentLength : Nat
  body : List UInt8
  deriving DecidableEq, Repr

/-- The body of the `async for` loop of `StreamService.stream_generator`
(lines 103–120) for one consumed message: a message whose decoding raises is
caught by the inner `except` and skipped; a payload without a (truthy)
`frame` key hits `continue`; decoded bytes failing the JPEG marker check hit
`continue`; only bytes passing the check are yielded, wrapped in the
multipart chunk. -/
def streamStep (m : StreamPayload) : Option MultipartChunk :=
  match m with
  | StreamPayload.malformed => none
  | StreamPayload.noFrame => none
  | StreamPayload.frame b =>
    if isValidJpeg b then
      some { contentType := "image/jpeg", contentLength := b.length, body := b }
    else none

/-- `StreamService.stream_generator` (lines 96–128) over a finite prefix of
the consumed messages: the sequence of multipart chunks yielded for them. -/
def stream_generator (msgs : List StreamPayload) : List MultipartChunk :=
  msgs.filterMap streamStep

/-- A concrete manager state holding an open connection (handles `0` and
`1`, exchange declared, attempt counter reset), as left by a successful
`connect` from the freshly constructed manager; used to instantiate the
theorems about `RabbitMQManager` at a connected manager. -/
def connState : MgrState :=
  { connection := some 0, channel := some 1, exchangeDeclared := true,
    isConnected := true, reconnectAttempts := 0, nextId := 2 }

/-! ## Theorems settling the claims -/

/-- C1: reconnect attempt `k` (1-indexed since the last successful connect,
so the attempt counter reads `k - 1` when the call starts) closes any
half-open state and then waits exactly `5 * k` time units before retrying
`connect()`; a call made after 5 consecutive failures (counter at 5) returns
failure immediately with an empty network trace; and a successful
`connect()` resets the attempt counter to zero. -/
theorem reconnect_backoff_schedule
    (s s5 sc : MgrState) (ok ok5 : Bool) (k : Nat)
    (hk : s.reconnectAttempts + 1 = k) (hle : k ≤ 5)
    (h5 : s5.reconnectAttempts = 5) :
    (reconnect s ok).2.2 =
      (if s.connection.isSome then [NetOp.disconnectOp] else []) ++
        [NetOp.sleepOp (5 * k), NetOp.connectAttempt] ∧
    reconnect s5 ok5 = (false, s5, []) ∧
    ((connect sc true).2.1).reconnectAttempts = 0 := by
  refine ⟨?_, ?_, ?_⟩
  · have hlt : ¬ (maxReconnectAttempts ≤ s.reconnectAttempts) := by
      simp only [maxReconnectAttempts]
      omega
    cases ok <;>
      simp [reconnect, connect, disconnect, hlt, hk]
  · simp [reconnect, maxReconnectAttempts, h5]
  · simp [connect]

/-- Witness for C1 at concrete inputs: the first reconnect from the freshly
built manager sleeps `5 * 1`; a manager whose counter reads 5 fails at once
with no network operation; a successful connect resets the counter. -/
theorem reconnect_backoff_schedule_witness :
    ((reconnect initMgr true).2.2 =
      (if initMgr.connection.isSome then [NetOp.disconnectOp] else []) ++
        [NetOp.sleepOp (5 * 1), NetOp.connectAttempt]) ∧
    reconnect { initMgr with reconnectAttempts := 5 } false =
      (false, { initMgr with reconnectAttempts := 5 }, []) ∧
    ((connect initMgr true).2.1).reconnectAttempts = 0 :=
  reconnect_backoff_schedule initMgr { initMgr with reconnectAttempts := 5 }
    initMgr true false 1 rfl (by decide) rfl

/-- C2 (code bug): evaluation of the dispatcher at the failing input — a
well-formed JSON message whose handler raises on its first delivery and
would succeed on a redelivery.  The core `message_handler` re-raises into
`message.process()`, which was entered with no arguments and therefore
rejects the message with `requeue = False`: the message is removed from the
queue, is never redelivered, and a fail-once-then-succeed handler observes
it exactly once (not at least twice as the claim states).  The workers
variant `process_detection_message` swallows the handler error inside the
block and always acknowledges, so it never requeues either. -/
theorem handler_failure_message_dropped :
    message_handler (some 0) (fun _ : Nat => HandlerResult.raises) =
      (Ack.reject false, 1) ∧
    settle (message_handler (some 0) (fun _ : Nat => HandlerResult.raises)).1
      (0 : Nat) [] = ([] : List Nat) ∧
    (message_handler (some 0) (fun _ : Nat => HandlerResult.raises)).1 ≠
      Ack.reject true ∧
    redeliverRun 5 (some 0) failThenSucceed 0 = 1 ∧
    (∀ svc : HandlerResult,
      (process_detection_message (some (some "cam1")) svc).1 = Ack.ack) := by
  refine ⟨rfl, rfl, by decide, rfl, ?_⟩
  intro svc
  cases svc <;> rfl

/-- C3: a consumed message whose body fails to decode as JSON is
acknowledged and dropped: the registered callback is invoked zero times, the
acknowledgement decision empties a queue holding only this message, the
decision is never a requeueing reject (so the message is not redelivered),
and the workers variant `process_detection_message` likewise acknowledges
without reaching the service code. -/
theorem malformed_message_acked_and_dropped
    (α : Type) (h : α → HandlerResult) (m : α) (svc : HandlerResult) :
    message_handler (none : Option α) h = (Ack.ack, 0) ∧
    settle (message_handler (none : Option α) h).1 m [] = ([] : List α) ∧
    (message_handler (none : Option α) h).1 ≠ Ack.reject true ∧
    process_detection_message none svc = (Ack.ack, false) := by
  refine ⟨rfl, rfl, by simp [message_handler], ?_⟩
  cases svc <;> rfl

/-- C4 counterexample: the claim fails on the code at a concrete input.
With the manager connected and the publish raising, `publish_message`
performs zero `reconnect()` calls and a single publish attempt (no retry),
returning `False` — not the one-reconnect-one-retry the claim states. -/
theorem publish_message_no_retry_counterexample :
    connState.isConnected = true ∧
    (publish_message connState true false).1 = false ∧
    (publish_message connState true false).2.2 = ⟨0, 1⟩ ∧
    (publish_message connState true false).2.2 ≠ ⟨1, 2⟩ := by decide

/-- C4 (amended): when an attempted publish fails, `publish_message`
performs no reconnect and no retry — it marks the manager disconnected and
returns false; a `reconnect()` (exactly one call) happens only at the start
of an invocation made while disconnected, and if it fails the publish is
never attempted.  No exception escapes `publish_message` (it is embedded as
a total function).  The standalone lifecycle publisher
`publish_camera_event` makes a single attempt on a fresh connection and
propagates any broker failure as an exception. -/
theorem publish_message_single_attempt
    (s : MgrState) (connectOk publishOk cOk pOk : Bool)
    (hfail : publishOk = false) :
    (publish_message s connectOk publishOk).1 = false ∧
    (publish_message s connectOk publishOk).2.2.publishAttempts ≤ 1 ∧
    (publish_message s connectOk publishOk).2.2.reconnectCalls =
      (if s.isConnected then 0 else 1) ∧
    ((publish_message s connectOk publishOk).2.1).isConnected = false ∧
    publish_camera_event cOk pOk =
      (if cOk && pOk then Except.ok () else Except.error ()) := by
  subst hfail
  refine ⟨?_, ?_, ?_, ?_, ?_⟩
  · by_cases hc : s.isConnected <;>
      (simp [publish_message, hc]; try (split_ifs <;> simp))
  · by_cases hc : s.isConnected <;>
      (simp [publish_message, hc]; try (split_ifs <;> simp))
  · by_cases hc : s.isConnected <;>
      (simp [publish_message, hc]; try (split_ifs <;> simp))
  · by_cases hc : s.isConnected
    · simp [publish_message, hc]
    · by_cases ha : maxReconnectAttempts ≤ s.reconnectAttempts
      · simp [publish_message, hc, reconnect, ha]
      · cases connectOk <;>
          simp [publish_message, hc, reconnect, ha, connect, disconnect]
  · cases cOk <;> cases pOk <;> rfl

/-- Witness for C4 (amended) at concrete inputs: a connected manager whose
publish fails returns false with one publish attempt, no reconnect, and is
left disconnected; `publish_camera_event` with both network calls
succeeding returns cleanly. -/
theorem publish_message_single_attempt_witness :
    (publish_message connState true false).1 = false ∧
    (publish_message connState true false).2.2.publishAttempts ≤ 1 ∧
    (publish_message connState true false).2.2.reconnectCalls =
      (if connState.isConnected then 0 else 1) ∧
    ((publish_message connState true false).2.1).isConnected = false ∧
    publish_camera_event true true =
      (if true && true then Except.ok () else Except.error ()) :=
  publish_message_single_attempt connState true false true true rfl

/-- C5: every chunk yielded by the stream generator carries content type
`image/jpeg`, a content length equal to the number of image bytes, and image
bytes that begin with the JPEG start-of-image marker and end with the
end-of-image marker; and a consumed message that yields nothing (malformed
payload, missing frame, or failed marker check) is skipped without
terminating the sequence. -/
theorem stream_frames_jpeg_framed
    (msgs : List StreamPayload) (c : MultipartChunk)
    (hc : c ∈ stream_generator msgs)
    (m : StreamPayload) (hm : streamStep m = none) :
    c.contentType = "image/jpeg" ∧
    c.contentLength = c.body.length ∧
    c.body.take 2 = jpegSOI ∧
    c.body.drop (c.body.length - 2) = jpegEOI ∧
    stream_generator (m :: msgs) = stream_generator msgs := by
  obtain ⟨a, _, hstep⟩ := List.mem_filterMap.mp hc
  have hlast : stream_generator (m :: msgs) = stream_generator msgs := by
    simp [stream_generator, List.filterMap_cons, hm]
  cases a with
  | malformed => simp [streamStep] at hstep
  | noFrame => simp [streamStep] at hstep
  | frame b =>
    by_cases hv : isValidJpeg b
    · rw [streamStep, if_pos hv] at hstep
      obtain rfl := Option.some_injective _ hstep
      have hv' := hv
      rw [isValidJpeg, Bool.and_eq_true, decide_eq_true_eq, decide_eq_true_eq]
        at hv'
      exact ⟨rfl, rfl, hv'.1, hv'.2, hlast⟩
    · rw [streamStep, if_neg hv] at hstep
      exact absurd hstep (by simp)

/-- Witness for C5 at concrete inputs: the four-byte frame
`ff d8 ff d9` is yielded as a chunk with content type `image/jpeg` and
matching length, and a malformed message prepended to the queue is skipped. -/
theorem stream_frames_jpeg_framed_witness :
    ("image/jpeg" : String) = "image/jpeg" ∧
    (4 : Nat) = ([0xff, 0xd8, 0xff, 0xd9] : List UInt8).length ∧
    ([0xff, 0xd8, 0xff, 0xd9] : List UInt8).take 2 = jpegSOI ∧
    ([0xff, 0xd8, 0xff, 0xd9] : List UInt8).drop
      (([0xff, 0xd8, 0xff, 0xd9] : List UInt8).length - 2) = jpegEOI ∧
    stream_generator
        (StreamPayload.malformed :: [StreamPayload.frame [0xff, 0xd8, 0xff, 0xd9]]) =
      stream_generator [StreamPayload.frame [0xff, 0xd8, 0xff, 0xd9]] :=
  stream_frames_jpeg_framed [StreamPayload.frame [0xff, 0xd8, 0xff, 0xd9]]
    { contentType := "image/jpeg", contentLength := 4,
      body := [0xff, 0xd8, 0xff, 0xd9] }
    (by decide) StreamPayload.malformed rfl

/-- C6: the per-camera frame queue is declared non-durable and auto-deleted
with `x-max-length = 5`, `x-message-ttl = 2000` (milliseconds, about 2
seconds) and `x-overflow = drop-head`; under the drop-head (drop-oldest)
broker semantics, enqueuing 6 = N + 1 frames into the empty bounded queue
leaves exactly N = 5 messages, the oldest frame having been evicted
first. -/
theorem bounded_lossy_queue_drop_oldest
    (cid : String) (M : Type) (a b c d e f : M) :
    streamQueueArgs =
      { durable := false, autoDelete := true, xMaxLength := some 5,
        xOverflow := some "drop-head", xMessageTtl := some 2000 } ∧
    (ensure_queues_declared StreamService.new cid).declares =
      [(infoQueueName cid, infoQueueArgs), (streamQueueName cid, streamQueueArgs)] ∧
    enqueueAll 5 ([] : List M) [a, b, c, d, e, f] = [b, c, d, e, f] ∧
    (enqueueAll 5 ([] : List M) [a, b, c, d, e, f]).length = 5 := by
  refine ⟨rfl, ?_, ?_, ?_⟩
  · simp [ensure_queues_declared, StreamService.new]
  · simp [enqueueAll, enqueueDropHead]
  · simp [enqueueAll, enqueueDropHead]

/-- C7 counterexample: the claim fails on the code.  The declaration cache
lives on the `StreamService` instance, and `get_stream_service` constructs a
fresh instance (empty cache) on every invocation, so the second of two
`_ensure_queues_declared("cam1")` calls made through `get_stream_service`
within one process lifetime is not a cache hit: it issues the two
`declare_queue` network operations again, for a process total of 4. -/
theorem ensure_queues_process_counterexample :
    (ensure_queues_declared get_stream_service "cam1").declares.length = 2 ∧
    (ensure_queues_declared get_stream_service "cam1").declares ≠ [] ∧
    (ensure_queues_declared get_stream_service "cam1").declares.length +
      (ensure_queues_declared get_stream_service "cam1").declares.length = 4 := by
  decide

/-- C7 (amended): the at-most-once guarantee holds per `StreamService`
instance, not per process lifetime: calling `_ensure_queues_declared` twice
for the same camera id on the same instance leaves the state of the first
call unchanged (the second call is a cache hit issuing no declare
operation), while `get_stream_service` hands out a fresh instance with an
empty cache on each invocation. -/
theorem ensure_queues_idempotent_per_instance
    (s : StreamServiceState) (cid : String) :
    ensure_queues_declared (ensure_queues_declared s cid) cid =
      ensure_queues_declared s cid ∧
    get_stream_service = StreamService.new := by
  constructor
  · by_cases h : cid ∈ s.declaredQueues
    · simp [ensure_queues_declared, h]
    · simp [ensure_queues_declared, h]
  · rfl

/-- C8: requesting stream info for a camera id on a service that has not
declared any queue for it, when the broker fetch delivers no metadata
message within the timeout, yields a `CameraStreamInfo` with status
`inactive` (and empty metadata fields) rather than `None`; the embedded
`get_stream_info` is a total function, so no exception is raised. -/
theorem inactive_camera_stream_info (cid : String) :
    (get_stream_info StreamService.new cid FetchOutcome.empty).2 =
      some { camera_id := cid, stream_url := streamUrl cid,
             status := CameraStatus.inactive, fps := none, resolution := none,
             codec := none, bitrate := none } ∧
    (get_stream_info StreamService.new cid FetchOutcome.empty).2 ≠ none :=
  ⟨rfl, Option.some_ne_none _⟩

/-- C9 counterexample: the claim fails on the code.  Calling `connect()` on
an already connected manager returns success but is not a no-op: the
previously held connection and channel handles are replaced by fresh
ones. -/
theorem connect_when_connected_counterexample :
    connState.isConnected = true ∧
    (connect connState true).1 = true ∧
    ((connect connState true).2.1).connection ≠ connState.connection ∧
    ((connect connState true).2.1).channel ≠ connState.channel := by decide

/-- C9 (amended): calling `connect()` while already connected returns
success and leaves the manager connected with the attempt counter reset,
but rather than being a no-op it installs a fresh connection (handle
`nextId`) and a fresh channel and re-declares the exchange, replacing the
existing handles. -/
theorem connect_when_connected (s : MgrState) (_h : s.isConnected = true) :
    (connect s true).1 = true ∧
    ((connect s true).2.1).isConnected = true ∧
    ((connect s true).2.1).reconnectAttempts = 0 ∧
    ((connect s true).2.1).connection = some s.nextId ∧
    ((connect s true).2.1).channel = some (s.nextId + 1) ∧
    ((connect s true).2.1).exchangeDeclared = true := by
  simp [connect]

/-- Witness for C9 (amended) at the concrete connected manager state. -/
theorem connect_when_connected_witness :
    (connect connState true).1 = true ∧
    ((connect connState true).2.1).isConnected = true ∧
    ((connect connState true).2.1).reconnectAttempts = 0 ∧
    ((connect connState true).2.1).connection = some connState.nextId ∧
    ((connect connState true).2.1).channel = some (connState.nextId + 1) ∧
    ((connect connState true).2.1).exchangeDeclared = true :=
  connect_when_connected connState rfl

/-- C10: an internal error while fetching or parsing the stream metadata
makes `get_stream_info` return `None` (propagating no exception — the
embedding is total), and the HTTP route maps that `None` to a 404 response;
together with the active and inactive cases the public interface has three
distinct outcomes: active info, inactive info, and 404. -/
theorem stream_info_error_is_404
    (s : StreamServiceState) (cid : String) (p : InfoPayload) :
    (get_stream_info s cid FetchOutcome.error).2 = none ∧
    get_camera_info s cid FetchOutcome.error = RouteResult.httpError 404 ∧
    get_camera_info s cid (FetchOutcome.msg none) = RouteResult.httpError 404 ∧
    get_camera_info s cid (FetchOutcome.msg (some p)) =
      RouteResult.ok { camera_id := cid, stream_url := streamUrl cid,
                       status := CameraStatus.active, fps := p.fps,
                       resolution := mkResolution p.width p.height,
                       codec := p.codec, bitrate := p.bitrate } ∧
    get_camera_info s cid FetchOutcome.empty =
      RouteResult.ok { camera_id := cid, stream_url := streamUrl cid,
                       status := CameraStatus.inactive, fps := none,
                       resolution := none, codec := none, bitrate := none } ∧
    get_camera_info s cid (FetchOutcome.msg (some p)) ≠
      get_camera_info s cid FetchOutcome.empty ∧
    get_camera_info s cid (FetchOutcome.msg (some p)) ≠
      RouteResult.httpError 404 := by
  refine ⟨rfl, rfl, rfl, rfl, rfl, ?_, ?_⟩
  · simp [get_camera_info, get_stream_info]
  · simp [get_camera_info, get_stream_info]
